import Mathlib

/-!
# Verification of the SAC training core (`dl/algorithms/sac.py`, `dl/util/ckptr.py`)

Shallow embedding of the Soft Actor-Critic trainer of this repository.

Modelling conventions:
* Machine floats are modelled by `ℚ` (the claims under study are algebraic,
  not about rounding).
* A batch tensor of shape `(B,)` is a `List ℚ`; elementwise tensor operations
  are `List.map` / `List.zipWith`.
* The function approximators (policy, critics, value nets) are opaque
  functions `ℚ → ℚ` (observations, actions and values are scalars here; the
  claims quantify over arbitrary such functions, which subsumes any batch of
  tensor components).
* Gradient flow (`.detach()` / stop-gradient) is modelled with dual numbers:
  a value paired with its derivative along one parameter direction;
  `detach` zeroes the derivative component, exactly as in the source.
-/

set_option maxRecDepth 8000

/-- Arithmetic mean of a list of rationals (`tensor.mean()`);
the empty mean is `0` by `ℚ` division conventions (claims only use
nonempty batches). -/
def meanQ (xs : List ℚ) : ℚ := xs.sum / xs.length

/-- `torch.nn.MSELoss()` with default mean reduction, applied to two
equal-shaped `(B,)` tensors. -/
def mseQ (xs ys : List ℚ) : ℚ :=
  meanQ (List.zipWith (fun a b => (a - b) * (a - b)) xs ys)

/-- Elementwise combination of three equal-length lists. -/
def zipWith3Q (f : ℚ → ℚ → ℚ → ℚ) : List ℚ → List ℚ → List ℚ → List ℚ
  | a :: as, b :: bs, c :: cs => f a b c :: zipWith3Q f as bs cs
  | _, _, _ => []

/-- `soft_target_update(target_net, net, tau)` (sac.py:17-19):
`tp.data.copy_((1. - tau) * tp.data + tau * p.data)` for each pair of
parameters, pairing by `zip` over the two parameter lists. -/
def soft_target_update (target_net net : List ℚ) (tau : ℚ) : List ℚ :=
  List.zipWith (fun tp p => (1 - tau) * tp + tau * p) target_net net

/-!
## Checkpointer (`dl/util/ckptr.py`)

The on-disk checkpoint set is modelled as the list of steps `t` for which a
file `format.format(t) + '.pt'` exists in `ckptdir` (the zero-padded decimal
file name is injective in `t`, so a step is on disk iff it is in this set).
-/

/-- Configuration of `Checkpointer.__init__` (ckptr.py:9-14): retention
options `max_ckpts_to_keep` and `min_ckpt_period` (both optional). -/
structure CheckpointerCfg where
  max_ckpts_to_keep : Option ℕ
  min_ckpt_period : Option ℕ

/-- `Checkpointer.ckpts` (ckptr.py:16-18): the steps with a checkpoint on
disk, sorted ascending. -/
def Checkpointer.ckpts (disk : List ℕ) : List ℕ :=
  List.insertionSort (· ≤ ·) disk

/-- `max(ts) if len(ts) > 0 else -1` (ckptr.py:25). -/
def Checkpointer.maxT (disk : List ℕ) : ℤ :=
  match Checkpointer.ckpts disk with
  | [] => -1
  | t :: rest => Int.ofNat (rest.foldl max t)

/-- The `for i, t in enumerate(ts)` loop of `Checkpointer.prune_ckpts`
(ckptr.py:47-54): walks the sorted steps keeping the first checkpoint of
each `min_ckpt_period` window and scheduling the rest for removal unless
they are among the `max_ckpts_to_keep` most recent. Arguments: steps left
to visit, current index `i`, `last_period`, window size, `max_ckpts_to_keep`,
and the total count `len(ts)`. -/
def Checkpointer.pruneLoop (minPeriod maxKeep total : ℕ) :
    List ℕ → ℕ → ℤ → List ℕ
  | [], _, _ => []
  | t :: rest, i, lastPeriod =>
    let per : ℤ := Int.ofNat (t / minPeriod)
    if lastPeriod < per then
      Checkpointer.pruneLoop minPeriod maxKeep total rest (i + 1) per
    else if i + maxKeep < total then
      t :: Checkpointer.pruneLoop minPeriod maxKeep total rest (i + 1) lastPeriod
    else
      Checkpointer.pruneLoop minPeriod maxKeep total rest (i + 1) lastPeriod

/-- `Checkpointer.prune_ckpts` (ckptr.py:40-57): returns the disk set after
removing the selected checkpoints (no-op when `max_ckpts_to_keep is None`). -/
def Checkpointer.prune_ckpts (cfg : CheckpointerCfg) (disk : List ℕ) : List ℕ :=
  match cfg.max_ckpts_to_keep with
  | none => disk
  | some maxKeep =>
    let ts := Checkpointer.ckpts disk
    let toRemove : List ℕ :=
      match cfg.min_ckpt_period with
      | none => ts.take (ts.length - maxKeep)
      | some minPeriod => Checkpointer.pruneLoop minPeriod maxKeep ts.length ts 0 (-1)
    disk.filter (fun t => ¬ t ∈ toRemove)

/-- `Checkpointer.save` (ckptr.py:23-28): asserts
`t > max(existing steps, default -1)` *before* writing the file; on success
writes the checkpoint and prunes. Returns the resulting disk set together
with `none` on success or the assertion message on failure (an uncaught
`AssertionError`); on failure the disk set is returned unchanged, since the
assert precedes the `torch.save` call. -/
def Checkpointer.save (cfg : CheckpointerCfg) (disk : List ℕ) (t : ℕ) :
    List ℕ × Option String :=
  if Checkpointer.maxT disk < Int.ofNat t then
    (Checkpointer.prune_ckpts cfg (t :: disk), none)
  else
    (disk, some "Cannot save a checkpoint at timestep t when checkpoints at a later timestep exist.")

/-- `Checkpointer.load` (ckptr.py:30-38): `t = None` selects
`max(self.ckpts())`; asserts that the requested checkpoint file exists, then
loads it. Returns the loaded step on success, or the assertion message. -/
def Checkpointer.load (disk : List ℕ) (t : Option ℕ) : Except String ℕ :=
  let t := match t with
    | none => match Checkpointer.ckpts disk with
      | [] => 0
      | c :: cs => cs.foldl max c
    | some t => t
  if t ∈ disk then Except.ok t
  else Except.error "Cannot find checkpoint at iteration t."

/-!
## SAC checkpointed training state (`sac.py:131-166`)

Parameter tensors and optimizer state payloads are opaque `List ℚ` values;
`log_alpha` is the single scalar of the `torch.zeros(1)` tensor. The
environment-side fields touched by `_reset()` (the live observation and the
replay buffer's episode bookkeeping) are outside the checkpointed state and
are not modelled; the buffer snapshot itself (`buffer.state_dict()`, not in
`src/`) is an opaque payload saved and restored verbatim.
-/

/-- The mutable training state of a `SAC` instance that `state_dict` /
`load_state_dict` read and write (sac.py:82-121). -/
structure SACState where
  pi : List ℚ
  qf1 : List ℚ
  qf2 : List ℚ
  vf : List ℚ
  target_vf : List ℚ
  opt_pi : List ℚ
  opt_qf1 : List ℚ
  opt_qf2 : List ℚ
  opt_vf : List ℚ
  automatic_entropy_tuning : Bool
  log_alpha : ℚ
  opt_alpha : List ℚ
  t : ℕ
  buffer : List ℚ
deriving DecidableEq

/-- The dictionary produced by `SAC.state_dict` (sac.py:131-145): note that
`target_vf` is absent, and `log_alpha`/`opt_alpha` are `None` when
automatic entropy tuning is disabled. -/
structure SACStateDict where
  pi : List ℚ
  qf1 : List ℚ
  qf2 : List ℚ
  vf : List ℚ
  opt_pi : List ℚ
  opt_qf1 : List ℚ
  opt_qf2 : List ℚ
  opt_vf : List ℚ
  log_alpha : Option ℚ
  opt_alpha : Option (List ℚ)
  t : ℕ
  buffer : List ℚ
deriving DecidableEq

/-- `SAC.state_dict` (sac.py:131-145). -/
def SAC.state_dict (s : SACState) : SACStateDict :=
  { pi := s.pi
    qf1 := s.qf1
    qf2 := s.qf2
    vf := s.vf
    opt_pi := s.opt_pi
    opt_qf1 := s.opt_qf1
    opt_qf2 := s.opt_qf2
    opt_vf := s.opt_vf
    log_alpha := if s.automatic_entropy_tuning then some s.log_alpha else none
    opt_alpha := if s.automatic_entropy_tuning then some s.opt_alpha else none
    t := s.t
    buffer := s.buffer }

/-- Python truthiness of `state_dict['log_alpha']` (sac.py:159): `None` is
falsy, and a one-element tensor is truthy iff its value is nonzero. -/
def truthyOptQ : Option ℚ → Bool
  | none => false
  | some x => decide (x ≠ 0)

/-- `SAC.load_state_dict` (sac.py:147-166): loads `pi`/`qf1`/`qf2`/`vf` and
their optimizers, overwrites `target_vf` with the *saved `vf`* entry
(line 152 — `target_vf` itself is not checkpointed), copies `log_alpha`
only when the saved entry is truthy (line 159-161), loads `opt_vf` a second
time in place of `opt_alpha` (line 162, so `opt_alpha` is never restored),
then restores the buffer and step counter. -/
def SAC.load_state_dict (s : SACState) (sd : SACStateDict) : SACState :=
  { s with
    pi := sd.pi
    qf1 := sd.qf1
    qf2 := sd.qf2
    vf := sd.vf
    target_vf := sd.vf
    opt_pi := sd.opt_pi
    opt_qf1 := sd.opt_qf1
    opt_qf2 := sd.opt_qf2
    opt_vf := sd.opt_vf
    log_alpha := if truthyOptQ sd.log_alpha then sd.log_alpha.getD s.log_alpha else s.log_alpha
    buffer := sd.buffer
    t := sd.t }

/-!
## Training orchestrator control loop (`sac.py:291-322`)

Only the scheduling-relevant scalars of the trainer are modelled: the step
counter `t`, the replay buffer's stored-transition count, and counters of
gradient-update batches and target soft-updates performed.
-/

/-- Scheduling configuration of `SAC.__init__` (sac.py:37-65). -/
structure SACTrainCfg where
  learning_starts : ℕ
  buffer_size : ℕ
  update_period : ℕ
  target_update_period : ℕ
deriving DecidableEq

/-- Scheduling-relevant trainer state: `t`, the buffer's
`num_in_buffer`, and event counters for gradient-update batches and target
soft-updates (each `grad_updates` increment stands for the block of
critic-1/critic-2/value(/policy) optimizer steps of sac.py:304-319). -/
structure SACTrainState where
  t : ℕ
  num_in_buffer : ℕ
  grad_updates : ℕ
  target_syncs : ℕ
deriving DecidableEq

/-- `SAC.act` (sac.py:183-202) as seen by the control loop: stores one
transition and advances `t` by one.

Modelled from the spec: `ReplayBuffer` (imported from `dl.util`, not under
`src/`) is a "bounded-size circular history", so its stored-transition
count after a store is `min (count + 1) capacity` and `buffer.size` is the
capacity (§3, §8: "the stored transition count equals
`min(500, steps_acted)`"). -/
def SAC.act (cfg : SACTrainCfg) (s : SACTrainState) : SACTrainState :=
  { s with
    t := s.t + 1
    num_in_buffer := min (s.num_in_buffer + 1) cfg.buffer_size }

/-- The warmup loop of `SAC.step` (sac.py:293-294):
`while self.buffer.num_in_buffer < min(self.learning_starts, self.buffer.size): self.act()`.
The Python loop terminates because each iteration below the threshold grows
`num_in_buffer` by one; the explicit fuel argument bounds the iteration
count, and `min learning_starts buffer_size` fuel always suffices
(see `SAC.warmupLoop_reaches`). -/
def SAC.warmupLoop (cfg : SACTrainCfg) : ℕ → SACTrainState → SACTrainState
  | 0, s => s
  | fuel + 1, s =>
    if s.num_in_buffer < min cfg.learning_starts cfg.buffer_size then
      SAC.warmupLoop cfg fuel (SAC.act cfg s)
    else s

/-- `SAC.step` (sac.py:291-322): act once, act until the warmup threshold
is met, then apply the target-sync gate (`t % target_update_period == 0`)
and the gradient gate (`t % update_period == 0`; one batch of optimizer
steps). The log gate (sac.py:321-322) touches no training state and is
omitted. -/
def SAC.step (cfg : SACTrainCfg) (s : SACTrainState) : SACTrainState :=
  let s1 := SAC.warmupLoop cfg (min cfg.learning_starts cfg.buffer_size) (SAC.act cfg s)
  let s2 := if s1.t % cfg.target_update_period = 0 then
      { s1 with target_syncs := s1.target_syncs + 1 }
    else s1
  if s1.t % cfg.update_period = 0 then
    { s2 with grad_updates := s2.grad_updates + 1 }
  else s2

/-!
## Loss engine (`SAC.loss`, sac.py:212-288), value level

A batch is a list of transitions with scalar components. The function
approximators are opaque functions; the policy's stochastic draw for the
batch is fixed into the functions `pi_ac` (the freshly sampled action `ã`
per observation) and `pi_logp` (its log-probability), exactly the values
the Python code binds to `new_ac` and `logp` before any loss is formed.
The optional observation normalizer (`self.pi.running_norm`, sac.py:225-226)
is an observation pre-map and is folded into the opaque critic/value
functions. `torch.exp` is the opaque map `expQ` (its analytic properties
play no role in the claims). The temperature optimizer step
(`opt_alpha.step()`, sac.py:234-236) is modelled as one exact
gradient-descent step on `log_alpha` with rate `alpha_lr`; the lemma
`sac_temperature_direction` includes the linearity fact showing
`SAC.alphaGrad` is the exact derivative of the temperature loss in
`log_alpha`. -/

/-- One stored transition `(ob, ac, rew, next_ob, done)` of a sampled
batch (sac.py:213); `done` is the `0/1` float mask. -/
structure SACRow where
  ob : ℚ
  ac : ℚ
  rew : ℚ
  next_ob : ℚ
  done : ℚ
deriving DecidableEq

/-- The five approximators and the policy's fixed stochastic draw. -/
structure SACNets where
  q1 : ℚ → ℚ → ℚ
  q2 : ℚ → ℚ → ℚ
  vf : ℚ → ℚ
  target_vf : ℚ → ℚ
  pi_ac : ℚ → ℚ
  pi_logp : ℚ → ℚ
  pi_mean : ℚ → ℚ
  pi_logstd : ℚ → ℚ

/-- Configuration read by `SAC.loss` (sac.py:23-121). -/
structure SACLossCfg where
  gamma : ℚ
  reward_scale : ℚ
  target_entropy : ℚ
  alpha_lr : ℚ
  expQ : ℚ → ℚ
  automatic_entropy_tuning : Bool
  rsample : Bool
  discrete : Bool
  policy_mean_reg_weight : ℚ
  policy_std_reg_weight : ℚ
  policy_update_period : ℕ
  t : ℕ

/-- `alpha_loss = -(self.log_alpha * (logp + self.target_entropy).detach()).mean()`
(sac.py:233). -/
def SAC.alpha_loss (cfg : SACLossCfg) (log_alpha : ℚ) (logp : List ℚ) : ℚ :=
  -(meanQ (logp.map (fun l => log_alpha * (l + cfg.target_entropy))))

/-- The derivative of `SAC.alpha_loss` in `log_alpha` (the loss is linear
in `log_alpha`; see `sac_temperature_direction`). -/
def SAC.alphaGrad (cfg : SACLossCfg) (logp : List ℚ) : ℚ :=
  -(meanQ (logp.map (fun l => l + cfg.target_entropy)))

/-- `opt_alpha.step()` (sac.py:236) as one gradient-descent step on
`log_alpha`. -/
def SAC.newLogAlpha (cfg : SACLossCfg) (log_alpha : ℚ) (logp : List ℚ) : ℚ :=
  log_alpha - cfg.alpha_lr * SAC.alphaGrad cfg logp

/-- `alpha = self.log_alpha.exp()` (sac.py:237) — read from the *updated*
`log_alpha`, since `opt_alpha.step()` has already mutated it; `alpha = 1`
when tuning is disabled (sac.py:239). -/
def SAC.alphaVal (nets : SACNets) (cfg : SACLossCfg) (batch : List SACRow)
    (log_alpha : ℚ) : ℚ :=
  if cfg.automatic_entropy_tuning then
    cfg.expQ (SAC.newLogAlpha cfg log_alpha (batch.map (fun r => nets.pi_logp r.ob)))
  else 1

/-- `q = torch.min(q1_new, q2_new)` with `q1_new = self.qf1(ob, new_ac)`,
`q2_new = self.qf2(ob, new_ac)` (sac.py:251-253). -/
def SAC.qminL (nets : SACNets) (batch : List SACRow) : List ℚ :=
  List.zipWith min
    (List.zipWith (fun r a => nets.q1 r.ob a) batch (batch.map (fun r => nets.pi_ac r.ob)))
    (List.zipWith (fun r a => nets.q2 r.ob a) batch (batch.map (fun r => nets.pi_ac r.ob)))

/-- Result of `SAC.loss` (sac.py:212-288): the updated `log_alpha`, the
temperature loss, and the four losses returned to `step` (`pi_loss` is
`None` when the policy-update gate is closed). -/
structure SACLossOut where
  log_alpha : ℚ
  alpha_loss : ℚ
  qf1_loss : ℚ
  qf2_loss : ℚ
  vf_loss : ℚ
  pi_loss : Option ℚ

/-- `SAC.loss` (sac.py:212-288), in source order: policy forward pass,
temperature block (immediate optimizer step), critic losses against the
bootstrapped target, value loss against the double-Q target, and the gated
policy loss with continuous-action regularizers. -/
def SAC.loss (nets : SACNets) (cfg : SACLossCfg) (batch : List SACRow)
    (log_alpha : ℚ) : SACLossOut :=
  let logp := batch.map (fun r => nets.pi_logp r.ob)
  let q1 := batch.map (fun r => nets.q1 r.ob r.ac)
  let q2 := batch.map (fun r => nets.q2 r.ob r.ac)
  let v := batch.map (fun r => nets.vf r.ob)
  let la2 := if cfg.automatic_entropy_tuning then SAC.newLogAlpha cfg log_alpha logp
    else log_alpha
  let alphaLossVal := if cfg.automatic_entropy_tuning then SAC.alpha_loss cfg log_alpha logp
    else 0
  let alpha := SAC.alphaVal nets cfg batch log_alpha
  let vtarg := batch.map (fun r => nets.target_vf r.next_ob)
  let qtarg := List.zipWith
    (fun r vt => cfg.reward_scale * r.rew + (1 - r.done) * cfg.gamma * vt) batch vtarg
  let qf1_loss := mseQ q1 qtarg
  let qf2_loss := mseQ q2 qtarg
  let q := SAC.qminL nets batch
  let vtarg2 := List.zipWith (fun qi l => qi - alpha * l) q logp
  let vf_loss := mseQ v vtarg2
  let pi_loss : Option ℚ :=
    if cfg.t % cfg.policy_update_period = 0 then
      let base :=
        if cfg.rsample then
          meanQ (List.zipWith (fun l qi => alpha * l - qi) logp q)
        else
          let pi_targ := List.zipWith (fun qi vi => qi - vi) q v
          meanQ (List.zipWith (fun l pt => l * (alpha * l - pt)) logp pi_targ)
      some (if cfg.discrete then base
        else base
          + cfg.policy_mean_reg_weight
            * meanQ (batch.map (fun r => nets.pi_mean r.ob * nets.pi_mean r.ob))
          + cfg.policy_std_reg_weight
            * meanQ (batch.map (fun r => nets.pi_logstd r.ob * nets.pi_logstd r.ob)))
    else none
  ⟨la2, alphaLossVal, qf1_loss, qf2_loss, vf_loss, pi_loss⟩

/-- Python truthiness of `if pi_loss:` (sac.py:316): `None` is falsy, and a
scalar loss tensor is truthy iff its value is nonzero. -/
def truthyOptLoss : Option ℚ → Bool
  | none => false
  | some l => decide (l ≠ 0)

/-- Identifier of an optimizer step applied by the trainer. -/
inductive SACOpt
  | qf1
  | qf2
  | vf
  | pi
deriving DecidableEq

/-- The update block of `SAC.step` (sac.py:298-319): when the gradient gate
`t % update_period == 0` is open, one optimizer step each for critic-1,
critic-2 and value, then the policy step guarded by `if pi_loss:`. -/
def SAC.updateSteps (t update_period : ℕ) (out : SACLossOut) : List SACOpt :=
  if t % update_period = 0 then
    [SACOpt.qf1, SACOpt.qf2, SACOpt.vf]
      ++ (if truthyOptLoss out.pi_loss then [SACOpt.pi] else [])
  else []

/-!
## Gradient flow (stop-gradient), dual-number level

A `Dual` is a value paired with its derivative along one fixed parameter
direction; `Dual.detach` is `.detach()` — it keeps the value and kills the
derivative. The lemmas below show the bootstrapped targets are fully
detached: the critic / value losses have zero derivative along *any*
direction that only perturbs the target branch.
-/

/-- A scalar with its derivative along one parameter direction. -/
structure Dual where
  val : ℚ
  der : ℚ
deriving DecidableEq

/-- Addition of duals. -/
def Dual.add (a b : Dual) : Dual := ⟨a.val + b.val, a.der + b.der⟩

/-- Subtraction of duals. -/
def Dual.sub (a b : Dual) : Dual := ⟨a.val - b.val, a.der - b.der⟩

/-- Product rule. -/
def Dual.mul (a b : Dual) : Dual := ⟨a.val * b.val, a.der * b.val + a.val * b.der⟩

/-- A constant (no dependence on the perturbed parameter). -/
def Dual.const (c : ℚ) : Dual := ⟨c, 0⟩

/-- `.detach()`: value kept, gradient severed. -/
def Dual.detach (a : Dual) : Dual := ⟨a.val, 0⟩

/-- `tensor.mean()` on duals (mean is linear, so the derivative is the mean
of the derivatives). -/
def meanD (xs : List Dual) : Dual := ⟨meanQ (xs.map Dual.val), meanQ (xs.map Dual.der)⟩

/-- `MSELoss` on duals. -/
def mseD (xs ys : List Dual) : Dual :=
  meanD (List.zipWith (fun a b => (a.sub b).mul (a.sub b)) xs ys)

/-- `qtarg = self.reward_scale * rew + (1.0 - done) * self.gamma * vtarg`
(sac.py:244) with the target branch `vtarg` carried as duals. -/
def SAC.qtargD (cfg : SACLossCfg) (batch : List SACRow) (vtargD : List Dual) : List Dual :=
  List.zipWith
    (fun r vt => (Dual.const (cfg.reward_scale * r.rew)).add
      (((Dual.const (1 - r.done)).mul (Dual.const cfg.gamma)).mul vt))
    batch vtargD

/-- `vtarg = q - alpha * logp` (sac.py:254) with every ingredient carried
as duals. -/
def SAC.vtarg2D (alphaD : Dual) (qD logpD : List Dual) : List Dual :=
  List.zipWith (fun qi l => qi.sub (alphaD.mul l)) qD logpD

/-- `SAC.__init__`'s resolution of `target_entropy` (sac.py:104-115):
`None` when tuning is disabled; otherwise the user value if truthy
(`if target_entropy:`), else the heuristic `-np.prod(action_space.shape)`. -/
def SAC.targetEntropyInit (automatic_entropy_tuning : Bool) (user : Option ℚ)
    (action_shape_prod : ℚ) : Option ℚ :=
  if automatic_entropy_tuning then
    some (if truthyOptQ user then user.getD 0 else -action_shape_prod)
  else none

/-!
## Shape contract (`SAC.loss` asserts, sac.py:245-266), shape level

Tensor shapes are dimension lists; elementwise arithmetic broadcasts
PyTorch-style (align trailing dimensions; equal dimensions or a `1` are
compatible). This model records, in source order, which optimizer steps
have been applied when a shape assertion fires. The scalar factors
(`reward_scale`, `gamma`, `alpha`) do not change shapes and `alpha`
(a one-element tensor) is treated as a scalar.
-/

/-- PyTorch broadcasting of two shapes given with trailing dimension first. -/
def broadcastRev : List ℕ → List ℕ → Option (List ℕ)
  | [], ys => some ys
  | x :: xs, [] => some (x :: xs)
  | x :: xs, y :: ys =>
    match broadcastRev xs ys with
    | none => none
    | some rest =>
      if x = y then some (x :: rest)
      else if x = 1 then some (y :: rest)
      else if y = 1 then some (x :: rest)
      else none

/-- PyTorch broadcasting of two shapes. -/
def broadcastShapes (s1 s2 : List ℕ) : Option (List ℕ) :=
  (broadcastRev s1.reverse s2.reverse).map List.reverse

/-- The fatal failures `SAC.loss` can raise: a broadcasting `RuntimeError`
from an elementwise op, or one of the shape `assert`s at sac.py:245-246
(`qtarg` vs critics), sac.py:255 (`v` vs `vtarg`) and sac.py:262/266
(policy branch). -/
inductive SACLossErr
  | broadcastFail
  | qtargShape
  | vtargShape
  | piShape
deriving DecidableEq

/-- Optimizer-step events, in the order the trainer applies them. -/
inductive SACOptEv
  | alpha
  | qf1
  | qf2
  | vf
  | pi
deriving DecidableEq

/-- Shape-level trace of `SAC.loss` (sac.py:212-288). Inputs are the shapes
of the batch tensors `rew`/`done`, the target-value output `vtarg`, the
critic outputs (`qS`, one network shape for both critics, evaluated at
either action), the value output `vS` and the policy log-probability
`logpS`; `piGate` is `t % policy_update_period == 0`. Returns the optimizer
steps already applied when the computation ends, with the error if one is
raised: the temperature step (sac.py:236) precedes every shape check. -/
def SAC.lossShape (autoEnt rsample piGate : Bool)
    (rewS doneS vtargS qS vS logpS : List ℕ) :
    List SACOptEv × Option SACLossErr :=
  let ev := if autoEnt then [SACOptEv.alpha] else []
  match broadcastShapes doneS vtargS with
  | none => (ev, some SACLossErr.broadcastFail)
  | some dv =>
    match broadcastShapes rewS dv with
    | none => (ev, some SACLossErr.broadcastFail)
    | some qtargS =>
      if qtargS ≠ qS then (ev, some SACLossErr.qtargShape)
      else
        match broadcastShapes qS logpS with
        | none => (ev, some SACLossErr.broadcastFail)
        | some vtarg2S =>
          if vS ≠ vtarg2S then (ev, some SACLossErr.vtargShape)
          else if piGate then
            if rsample then
              if qS ≠ logpS then (ev, some SACLossErr.piShape) else (ev, none)
            else
              match broadcastShapes qS vS with
              | none => (ev, some SACLossErr.broadcastFail)
              | some piTargS =>
                if piTargS ≠ logpS then (ev, some SACLossErr.piShape) else (ev, none)
          else (ev, none)

/-- Shape-level trace of the gradient-gate block of `SAC.step`
(sac.py:298-319): when the gate is open, the loss runs first; a loss error
propagates unchanged (there is no `try` anywhere on the path) and no
further optimizer step is applied; on success the critic-1/critic-2/value
steps follow, then the policy step if `pi_loss` is truthy. -/
def SAC.stepShape (updGate piTruthy : Bool) (autoEnt rsample piGate : Bool)
    (rewS doneS vtargS qS vS logpS : List ℕ) :
    List SACOptEv × Option SACLossErr :=
  if updGate then
    match SAC.lossShape autoEnt rsample piGate rewS doneS vtargS qS vS logpS with
    | (ev, some e) => (ev, some e)
    | (ev, none) =>
      (ev ++ [SACOptEv.qf1, SACOptEv.qf2, SACOptEv.vf]
        ++ (if piTruthy then [SACOptEv.pi] else []), none)
  else ([], none)

/-- Helper: indexing a `zipWith` via optional lookup. -/
theorem zipWith_getElem? (f : ℚ → ℚ → ℚ) (xs ys : List ℚ) (i : ℕ)
    (x y : ℚ) (hx : xs[i]? = some x) (hy : ys[i]? = some y) :
    (List.zipWith f xs ys)[i]? = some (f x y) := by
  induction xs generalizing ys i with
  | nil => simp at hx
  | cons a as ih =>
    cases ys with
    | nil => simp at hy
    | cons b bs =>
      cases i with
      | zero =>
        simp_all
      | succ n =>
        simp only [List.zipWith_cons_cons, List.getElem?_cons_succ] at *
        exact ih bs n hx hy

/-- Helper: a `zipWith` that returns its second argument elementwise is the
identity on the second list when lengths agree. -/
theorem zipWith_eq_right (f : ℚ → ℚ → ℚ) (xs ys : List ℚ)
    (hlen : xs.length = ys.length) (hf : ∀ a b, f a b = b) :
    List.zipWith f xs ys = ys := by
  induction xs generalizing ys with
  | nil => cases ys with
    | nil => rfl
    | cons b bs => simp at hlen
  | cons a as ih =>
    cases ys with
    | nil => simp at hlen
    | cons b bs =>
      simp only [List.zipWith_cons_cons, hf]
      simp only [List.length_cons, Nat.succ.injEq] at hlen
      rw [ih bs hlen]

/-- C3: Soft target update: for every `τ`, each updated target parameter in
matching position equals `(1−τ)·old_target + τ·source`; and for `τ = 1`
(given matching parameter lists) the update is a hard copy of the source. -/
theorem soft_target_update_spec (target_net net : List ℚ) (tau : ℚ) :
    (∀ (i : ℕ) (tp p : ℚ), target_net[i]? = some tp → net[i]? = some p →
      (soft_target_update target_net net tau)[i]? = some ((1 - tau) * tp + tau * p))
    ∧ (tau = 1 → target_net.length = net.length →
      soft_target_update target_net net tau = net) := by
  constructor
  · intro i tp p htp hp
    exact zipWith_getElem? _ target_net net i tp p htp hp
  · intro htau hlen
    subst htau
    exact zipWith_eq_right _ target_net net hlen (by intro a b; ring)

/-- Helper: zipping a list with a map of itself is a map. -/
theorem zipWith_map_self {α : Type} (f : α → ℚ → ℚ) (g : α → ℚ) :
    ∀ l : List α, List.zipWith f l (l.map g) = l.map (fun a => f a (g a)) := by
  intro l
  induction l with
  | nil => rfl
  | cons a as ih => simp [ih]

/-- Helper: zipping two maps of the same list is a map. -/
theorem zipWith_map_map {α : Type} (h : ℚ → ℚ → ℚ) (f g : α → ℚ) :
    ∀ l : List α, List.zipWith h (l.map f) (l.map g) = l.map (fun a => h (f a) (g a)) := by
  intro l
  induction l with
  | nil => rfl
  | cons a as ih => simp [ih]

/-- Helper: sums of pointwise products with a constant factor. -/
theorem sum_map_mul_const (c : ℚ) (f : ℚ → ℚ) :
    ∀ l : List ℚ, (l.map (fun x => c * f x)).sum = c * (l.map f).sum := by
  intro l
  induction l with
  | nil => simp
  | cons a as ih => simp [ih]; ring

/-- Helper: sums of pointwise sums. -/
theorem sum_map_add (f g : ℚ → ℚ) :
    ∀ l : List ℚ, (l.map (fun x => f x + g x)).sum = (l.map f).sum + (l.map g).sum := by
  intro l
  induction l with
  | nil => simp
  | cons a as ih => simp [ih]; ring

/-- Helper: the mean is homogeneous. -/
theorem meanQ_map_mul (c : ℚ) (f : ℚ → ℚ) (l : List ℚ) :
    meanQ (l.map (fun x => c * f x)) = c * meanQ (l.map f) := by
  unfold meanQ
  rw [sum_map_mul_const]
  simp [mul_div_assoc]

/-- Helper: the mean is additive over pointwise sums. -/
theorem meanQ_map_add (f g : ℚ → ℚ) (l : List ℚ) :
    meanQ (l.map (fun x => f x + g x)) = meanQ (l.map f) + meanQ (l.map g) := by
  unfold meanQ
  rw [sum_map_add]
  simp [add_div]

/-- Helper: an MSE between lists of duals with zero derivative components
has zero derivative. -/
theorem mseD_der_eq_zero (xs ys : List Dual)
    (hx : ∀ a ∈ xs, a.der = 0) (hy : ∀ b ∈ ys, b.der = 0) :
    (mseD xs ys).der = 0 := by
  have hz : ∀ d ∈ List.zipWith (fun a b => (a.sub b).mul (a.sub b)) xs ys, d.der = 0 := by
    induction xs generalizing ys with
    | nil => intro d hd; simp at hd
    | cons a as ih =>
      intro d hd
      cases ys with
      | nil => simp at hd
      | cons b bs =>
        simp only [List.zipWith_cons_cons, List.mem_cons] at hd
        rcases hd with hd | hd
        · have ha := hx a (by simp)
          have hb := hy b (by simp)
          subst hd
          simp [Dual.sub, Dual.mul, ha, hb]
        · exact ih bs (fun x hxm => hx x (List.mem_cons_of_mem _ hxm))
            (fun x hxm => hy x (List.mem_cons_of_mem _ hxm)) d hd
  unfold mseD meanD meanQ
  have : ((List.zipWith (fun a b => (a.sub b).mul (a.sub b)) xs ys).map Dual.der).sum = 0 := by
    apply List.sum_eq_zero
    intro x hxm
    rcases List.mem_map.mp hxm with ⟨d, hd, rfl⟩
    exact hz d hd
  simp [this]

/-- Helper: the warmup loop reaches the threshold whenever its fuel covers
the missing transitions. -/
theorem SAC.warmupLoop_reaches (cfg : SACTrainCfg) :
    ∀ (fuel : ℕ) (s : SACTrainState),
      min cfg.learning_starts cfg.buffer_size ≤ s.num_in_buffer + fuel →
      min cfg.learning_starts cfg.buffer_size ≤ (SAC.warmupLoop cfg fuel s).num_in_buffer := by
  intro fuel
  induction fuel with
  | zero =>
    intro s h
    simpa [SAC.warmupLoop] using h
  | succ n ih =>
    intro s h
    unfold SAC.warmupLoop
    split
    · next hlt =>
      apply ih
      have hcap : s.num_in_buffer + 1 ≤ cfg.buffer_size := by
        have := lt_of_lt_of_le hlt (min_le_right _ _)
        omega
      simp only [SAC.act, min_eq_left hcap]
      omega
    · next hge => omega

/-- Helper: the warmup loop only acts, it performs no gradient updates. -/
theorem SAC.warmupLoop_grad (cfg : SACTrainCfg) :
    ∀ (fuel : ℕ) (s : SACTrainState),
      (SAC.warmupLoop cfg fuel s).grad_updates = s.grad_updates := by
  intro fuel
  induction fuel with
  | zero => intro s; rfl
  | succ n ih =>
    intro s
    unfold SAC.warmupLoop
    split
    · exact ih (SAC.act cfg s)
    · rfl

/-- C2: Warmup gate: `SAC.step` always evaluates its gradient gate in a
state whose stored-transition count has reached
`min(learning_starts, capacity)` — so no optimizer update ever fires below
the threshold, for every `update_period`; the step leaves the count at the
post-warmup value (at or above the threshold, so the warmup phase is never
re-entered); and with `learning_starts = 300`, `capacity = 500`,
`update_period = 1` the first call acts exactly 300 times and then fires
the first gradient update at `t = 300`. -/
theorem sac_warmup_gate (cfg : SACTrainCfg) (s : SACTrainState) :
    min cfg.learning_starts cfg.buffer_size
      ≤ (SAC.warmupLoop cfg (min cfg.learning_starts cfg.buffer_size) (SAC.act cfg s)).num_in_buffer
    ∧ (SAC.step cfg s).num_in_buffer
      = (SAC.warmupLoop cfg (min cfg.learning_starts cfg.buffer_size) (SAC.act cfg s)).num_in_buffer
    ∧ (SAC.step cfg s).grad_updates
      = s.grad_updates
        + (if (SAC.warmupLoop cfg (min cfg.learning_starts cfg.buffer_size) (SAC.act cfg s)).t
              % cfg.update_period = 0 then 1 else 0)
    ∧ min cfg.learning_starts cfg.buffer_size ≤ (SAC.step cfg s).num_in_buffer
    ∧ SAC.step ⟨300, 500, 1, 100⟩ ⟨0, 0, 0, 0⟩ = ⟨300, 300, 1, 1⟩ := by
  have hreach := SAC.warmupLoop_reaches cfg (min cfg.learning_starts cfg.buffer_size)
    (SAC.act cfg s) (by omega)
  have hg : (SAC.warmupLoop cfg (min cfg.learning_starts cfg.buffer_size)
      (SAC.act cfg s)).grad_updates = s.grad_updates := SAC.warmupLoop_grad cfg _ _
  have hnum : (SAC.step cfg s).num_in_buffer
      = (SAC.warmupLoop cfg (min cfg.learning_starts cfg.buffer_size)
          (SAC.act cfg s)).num_in_buffer := by
    simp only [SAC.step]
    split <;> split <;> rfl
  refine ⟨hreach, hnum, ?_, ?_, ?_⟩
  · simp only [SAC.step]
    split
    · next h => split <;> simp [hg]
    · next h => split <;> simp [hg]
  · rw [hnum]; exact hreach
  · decide

/-- C1 counterexample: a training state in which the target value function
differs from the value function (the generic situation after any Polyak
update with `τ < 1`) is *not* reproduced by a `state_dict` /
`load_state_dict` round trip: the restored `target_vf` equals the saved
`vf`, not the saved `target_vf`. -/
theorem sac_checkpoint_roundtrip_counterexample :
    (SAC.load_state_dict ⟨[0], [0], [0], [2], [1], [0], [0], [0], [0], true, 3, [5], 4, [9]⟩
        (SAC.state_dict ⟨[0], [0], [0], [2], [1], [0], [0], [0], [0], true, 3, [5], 4, [9]⟩)).target_vf
      ≠ (SACState.target_vf ⟨[0], [0], [0], [2], [1], [0], [0], [0], [0], true, 3, [5], 4, [9]⟩) := by
  decide

/-- C1 amended: a `state_dict` round trip (loading into an instance in
state `s2`) restores the `pi`/`qf1`/`qf2`/`vf` parameters, their optimizer
states, the step counter and the buffer snapshot of the saved state `s`;
but `target_vf` is overwritten with the saved `vf`, the temperature
optimizer state is never restored, and `log_alpha` is restored only when
entropy tuning was enabled and the saved scalar is nonzero. -/
theorem sac_checkpoint_roundtrip (s s2 : SACState) :
    (SAC.load_state_dict s2 (SAC.state_dict s)).pi = s.pi
    ∧ (SAC.load_state_dict s2 (SAC.state_dict s)).qf1 = s.qf1
    ∧ (SAC.load_state_dict s2 (SAC.state_dict s)).qf2 = s.qf2
    ∧ (SAC.load_state_dict s2 (SAC.state_dict s)).vf = s.vf
    ∧ (SAC.load_state_dict s2 (SAC.state_dict s)).target_vf = s.vf
    ∧ (SAC.load_state_dict s2 (SAC.state_dict s)).opt_pi = s.opt_pi
    ∧ (SAC.load_state_dict s2 (SAC.state_dict s)).opt_qf1 = s.opt_qf1
    ∧ (SAC.load_state_dict s2 (SAC.state_dict s)).opt_qf2 = s.opt_qf2
    ∧ (SAC.load_state_dict s2 (SAC.state_dict s)).opt_vf = s.opt_vf
    ∧ (SAC.load_state_dict s2 (SAC.state_dict s)).opt_alpha = s2.opt_alpha
    ∧ (SAC.load_state_dict s2 (SAC.state_dict s)).log_alpha
        = (if s.automatic_entropy_tuning = true ∧ s.log_alpha ≠ 0 then s.log_alpha else s2.log_alpha)
    ∧ (SAC.load_state_dict s2 (SAC.state_dict s)).t = s.t
    ∧ (SAC.load_state_dict s2 (SAC.state_dict s)).buffer = s.buffer := by
  refine ⟨rfl, rfl, rfl, rfl, rfl, rfl, rfl, rfl, rfl, rfl, ?_, rfl, rfl⟩
  cases h : s.automatic_entropy_tuning with
  | false => simp [SAC.load_state_dict, SAC.state_dict, truthyOptQ, h]
  | true =>
    by_cases hla : s.log_alpha = 0
    · simp [SAC.load_state_dict, SAC.state_dict, truthyOptQ, h, hla]
    · simp [SAC.load_state_dict, SAC.state_dict, truthyOptQ, h, hla]

/-- C8: Checkpoint error contract: `save(state, t)` fails exactly when `t`
is not strictly greater than the largest existing checkpoint step (with
`-1` standing for an empty checkpoint directory), a failed save leaves the
on-disk checkpoint set unchanged, and `load(t)` fails exactly when no
checkpoint exists at the requested step `t`. -/
theorem checkpointer_error_contract (cfg : CheckpointerCfg) (disk : List ℕ) (t : ℕ) :
    ((Checkpointer.save cfg disk t).2.isSome ↔ Int.ofNat t ≤ Checkpointer.maxT disk)
    ∧ ((Checkpointer.save cfg disk t).2.isSome → (Checkpointer.save cfg disk t).1 = disk)
    ∧ (∀ s : ℕ, (∃ msg, Checkpointer.load disk (some s) = Except.error msg) ↔ s ∉ disk) := by
  refine ⟨?_, ?_, ?_⟩
  · unfold Checkpointer.save
    split
    · next h =>
      simp only [Option.isSome_none, Bool.false_eq_true, false_iff, not_le]
      exact h
    · next h =>
      simp only [Option.isSome_some, true_iff]
      exact not_lt.mp h
  · unfold Checkpointer.save
    split
    · simp
    · intro _; rfl
  · intro s
    simp only [Checkpointer.load]
    split
    · next h => simp [h]
    · next h => simp [h]

/-- Witness for `checkpointer_error_contract`: with checkpoints at steps
{3, 7}, saving at step 5 fails and leaves the disk unchanged, and loading
step 5 fails. -/
theorem checkpointer_error_contract_witness :
    (Checkpointer.save ⟨none, none⟩ [3, 7] 5).2.isSome
    ∧ (Checkpointer.save ⟨none, none⟩ [3, 7] 5).1 = [3, 7]
    ∧ (∃ msg, Checkpointer.load [3, 7] (some 5) = Except.error msg) := by
  have h := checkpointer_error_contract ⟨none, none⟩ [3, 7] 5
  have hfail : (Checkpointer.save ⟨none, none⟩ [3, 7] 5).2.isSome := by
    apply h.1.mpr
    decide
  exact ⟨hfail, h.2.1 hfail, (h.2.2 5).mpr (by decide)⟩

/-- Witness for `soft_target_update_spec` at concrete inputs. -/
theorem soft_target_update_spec_witness :
    (soft_target_update [4, 8] [2, 6] (1/2))[0]? = some ((1 - 1/2) * 4 + (1/2) * 2)
    ∧ soft_target_update [4, 8] [2, 6] 1 = [2, 6] := by
  refine ⟨(soft_target_update_spec [4, 8] [2, 6] (1/2)).1 0 4 2 rfl rfl, ?_⟩
  exact (soft_target_update_spec [4, 8] [2, 6] 1).2 rfl rfl

/-- Helper: the dual-number critic target carries the same values as the
value-level formula. -/
theorem SAC.qtargD_val (cfg : SACLossCfg) :
    ∀ (batch : List SACRow) (vtargD : List Dual),
      (SAC.qtargD cfg batch vtargD).map Dual.val
        = List.zipWith
            (fun r vt => cfg.reward_scale * r.rew + (1 - r.done) * cfg.gamma * vt)
            batch (vtargD.map Dual.val) := by
  intro batch
  induction batch with
  | nil => intro vtargD; simp [SAC.qtargD]
  | cons r rs ih =>
    intro vtargD
    cases vtargD with
    | nil => simp [SAC.qtargD]
    | cons vt vts =>
      simp only [SAC.qtargD, List.map_cons, List.zipWith_cons_cons, List.cons.injEq]
      exact ⟨rfl, by simpa [SAC.qtargD] using ih vts⟩

/-- C4: Critic target: the critic losses returned by `SAC.loss` regress
`Q1(ob, ac)` and `Q2(ob, ac)` — evaluated at the *stored* action `ac` —
to the identical bootstrapped target
`reward_scale·r + (1−done)·γ·V_targ(next_ob)` by squared error; the losses
do not depend on the freshly sampled action `ã` or its log-probability;
and the target branch is fully detached: along any parameter direction
that perturbs only `V_targ`'s output, the critic losses have derivative
zero, and the detached duals still carry the same values. -/
theorem sac_critic_target (nets : SACNets) (cfg : SACLossCfg) (batch : List SACRow)
    (log_alpha : ℚ) :
    (SAC.loss nets cfg batch log_alpha).qf1_loss
      = mseQ (batch.map (fun r => nets.q1 r.ob r.ac))
          (batch.map (fun r =>
            cfg.reward_scale * r.rew + (1 - r.done) * cfg.gamma * nets.target_vf r.next_ob))
    ∧ (SAC.loss nets cfg batch log_alpha).qf2_loss
      = mseQ (batch.map (fun r => nets.q2 r.ob r.ac))
          (batch.map (fun r =>
            cfg.reward_scale * r.rew + (1 - r.done) * cfg.gamma * nets.target_vf r.next_ob))
    ∧ (∀ f g : ℚ → ℚ,
        (SAC.loss { nets with pi_ac := f, pi_logp := g } cfg batch log_alpha).qf1_loss
          = (SAC.loss nets cfg batch log_alpha).qf1_loss
        ∧ (SAC.loss { nets with pi_ac := f, pi_logp := g } cfg batch log_alpha).qf2_loss
          = (SAC.loss nets cfg batch log_alpha).qf2_loss)
    ∧ (∀ (q1vals q2vals : List ℚ) (vtargD : List Dual),
        (mseD (q1vals.map Dual.const) ((SAC.qtargD cfg batch vtargD).map Dual.detach)).der = 0
        ∧ (mseD (q2vals.map Dual.const) ((SAC.qtargD cfg batch vtargD).map Dual.detach)).der = 0)
    ∧ (∀ vtargD : List Dual,
        (SAC.qtargD cfg batch vtargD).map Dual.val
          = List.zipWith
              (fun r vt => cfg.reward_scale * r.rew + (1 - r.done) * cfg.gamma * vt)
              batch (vtargD.map Dual.val)) := by
  have hdetach : ∀ (qv : List ℚ) (vtargD : List Dual),
      (mseD (qv.map Dual.const) ((SAC.qtargD cfg batch vtargD).map Dual.detach)).der = 0 := by
    intro qv vtargD
    apply mseD_der_eq_zero
    · intro a ha
      rcases List.mem_map.mp ha with ⟨x, _, rfl⟩
      rfl
    · intro b hb
      rcases List.mem_map.mp hb with ⟨x, _, rfl⟩
      rfl
  refine ⟨?_, ?_, ?_, fun q1vals q2vals vtargD => ⟨hdetach _ _, hdetach _ _⟩,
    fun vtargD => SAC.qtargD_val cfg batch vtargD⟩
  · simp only [SAC.loss]
    rw [zipWith_map_self]
  · simp only [SAC.loss]
    rw [zipWith_map_self]
  · intro f g
    exact ⟨rfl, rfl⟩

/-- Helper: the double-Q minimum list is the elementwise minimum of both
critics at the freshly sampled action. -/
theorem SAC.qminL_eq_map (nets : SACNets) (batch : List SACRow) :
    SAC.qminL nets batch
      = batch.map (fun r =>
          min (nets.q1 r.ob (nets.pi_ac r.ob)) (nets.q2 r.ob (nets.pi_ac r.ob))) := by
  unfold SAC.qminL
  rw [zipWith_map_self, zipWith_map_self, zipWith_map_map]

/-- Helper: closed form of the value loss of `SAC.loss`. -/
theorem SAC.vf_loss_eq (nets : SACNets) (cfg : SACLossCfg) (batch : List SACRow)
    (log_alpha : ℚ) :
    (SAC.loss nets cfg batch log_alpha).vf_loss
      = mseQ (batch.map (fun r => nets.vf r.ob))
          (batch.map (fun r =>
            min (nets.q1 r.ob (nets.pi_ac r.ob)) (nets.q2 r.ob (nets.pi_ac r.ob))
              - SAC.alphaVal nets cfg batch log_alpha * nets.pi_logp r.ob)) := by
  simp only [SAC.loss]
  rw [SAC.qminL_eq_map, zipWith_map_map]

/-- C5: Double-Q value target: the `q_min` used by the value loss equals
`min(Q1(ob, ã), Q2(ob, ã))` elementwise for every batch row (with `ã` the
freshly sampled action, so the value loss is invariant under changing the
stored actions `ac`); the value loss is the squared error between `V(ob)`
and `q_min − α·logp`; and the value target is stop-gradded — its dual
carries derivative zero into the loss along any direction perturbing the
target branch. -/
theorem sac_value_target (nets : SACNets) (cfg : SACLossCfg) (batch : List SACRow)
    (log_alpha : ℚ) :
    (SAC.loss nets cfg batch log_alpha).vf_loss
      = mseQ (batch.map (fun r => nets.vf r.ob))
          (batch.map (fun r =>
            min (nets.q1 r.ob (nets.pi_ac r.ob)) (nets.q2 r.ob (nets.pi_ac r.ob))
              - SAC.alphaVal nets cfg batch log_alpha * nets.pi_logp r.ob))
    ∧ (∀ (i : ℕ) (r : SACRow), batch[i]? = some r →
        (SAC.qminL nets batch)[i]?
          = some (min (nets.q1 r.ob (nets.pi_ac r.ob)) (nets.q2 r.ob (nets.pi_ac r.ob))))
    ∧ (∀ f : SACRow → ℚ,
        (SAC.loss nets cfg (batch.map (fun r => { r with ac := f r })) log_alpha).vf_loss
          = (SAC.loss nets cfg batch log_alpha).vf_loss)
    ∧ (∀ (vvals : List ℚ) (alphaD : Dual) (qD logpD : List Dual),
        (mseD (vvals.map Dual.const) ((SAC.vtarg2D alphaD qD logpD).map Dual.detach)).der
          = 0) := by
  refine ⟨SAC.vf_loss_eq nets cfg batch log_alpha, ?_, ?_, ?_⟩
  · intro i r hr
    rw [SAC.qminL_eq_map]
    simp [hr]
  · intro f
    rw [SAC.vf_loss_eq, SAC.vf_loss_eq]
    simp only [SAC.alphaVal, List.map_map]
    rfl
  · intro vvals alphaD qD logpD
    apply mseD_der_eq_zero
    · intro a ha
      rcases List.mem_map.mp ha with ⟨x, _, rfl⟩
      rfl
    · intro b hb
      rcases List.mem_map.mp hb with ⟨x, _, rfl⟩
      rfl

/-- Witness for `sac_value_target`: on a one-row batch with concrete nets,
the double-Q minimum of row 0 is `min(Q1(ob, ã), Q2(ob, ã)) = min 3 2 = 2`. -/
theorem sac_value_target_witness :
    (SAC.qminL
        ⟨fun o a => o + a, fun o a => o * a, fun o => o, fun o => o, fun o => o + 1, fun o => o,
          fun _ => 0, fun _ => 0⟩
        [⟨1, 2, 3, 4, 0⟩])[0]? = some 2 := by
  have h := (sac_value_target
      ⟨fun o a => o + a, fun o a => o * a, fun o => o, fun o => o, fun o => o + 1, fun o => o,
        fun _ => 0, fun _ => 0⟩
      ⟨0, 0, 0, 0, fun x => x, false, true, true, 0, 0, 1, 0⟩
      [⟨1, 2, 3, 4, 0⟩] 0).2.1 0 ⟨1, 2, 3, 4, 0⟩ rfl
  norm_num at h
  exact h

/-- C6 counterexample: with the gradient gate and the policy-update gate
both open (`t = 0`, `update_period = policy_update_period = 1`), a batch
whose computed policy loss is exactly `0` takes *no* policy optimizer step,
because `if pi_loss:` (sac.py:316) tests Python truthiness, not `None`-ness:
the claimed "policy step iff `t % policy_update_period == 0`" fails. -/
theorem sac_update_gating_counterexample :
    (0 : ℕ) % 1 = 0
    ∧ (SAC.loss
        ⟨fun _ _ => 1, fun _ _ => 1, fun _ => 0, fun _ => 0, fun _ => 0, fun _ => 1,
          fun _ => 0, fun _ => 0⟩
        ⟨0, 0, 0, 0, fun x => x, false, true, true, 0, 0, 1, 0⟩
        [⟨0, 0, 0, 0, 0⟩] 0).pi_loss = some 0
    ∧ SACOpt.pi ∉ SAC.updateSteps 0 1
        (SAC.loss
          ⟨fun _ _ => 1, fun _ _ => 1, fun _ => 0, fun _ => 0, fun _ => 0, fun _ => 1,
            fun _ => 0, fun _ => 0⟩
          ⟨0, 0, 0, 0, fun x => x, false, true, true, 0, 0, 1, 0⟩
          [⟨0, 0, 0, 0, 0⟩] 0) := by
  have hp : (SAC.loss
      ⟨fun _ _ => 1, fun _ _ => 1, fun _ => 0, fun _ => 0, fun _ => 0, fun _ => 1,
        fun _ => 0, fun _ => 0⟩
      ⟨0, 0, 0, 0, fun x => x, false, true, true, 0, 0, 1, 0⟩
      [⟨0, 0, 0, 0, 0⟩] 0).pi_loss = some 0 := by
    norm_num [SAC.loss, SAC.qminL, SAC.alphaVal, meanQ]
  refine ⟨rfl, hp, ?_⟩
  simp [SAC.updateSteps, truthyOptLoss, hp]

/-- C6 amended: on an update step (`t % update_period == 0`) exactly one
optimizer step is applied to each of critic-1, critic-2 and value; a policy
loss is computed iff `t % policy_update_period == 0`, but the policy
optimizer step fires iff additionally the computed loss is nonzero
(`if pi_loss:` truthiness); and the temperature update inside the loss is
independent of the policy-update period. -/
theorem sac_update_gating (nets : SACNets) (cfg : SACLossCfg) (batch : List SACRow)
    (log_alpha : ℚ) (t update_period : ℕ) :
    ((SAC.loss nets cfg batch log_alpha).pi_loss.isSome
      ↔ cfg.t % cfg.policy_update_period = 0)
    ∧ (SACOpt.pi ∈ SAC.updateSteps t update_period (SAC.loss nets cfg batch log_alpha)
        ↔ t % update_period = 0
          ∧ ∃ l, (SAC.loss nets cfg batch log_alpha).pi_loss = some l ∧ l ≠ 0)
    ∧ (t % update_period = 0 →
        (SAC.updateSteps t update_period (SAC.loss nets cfg batch log_alpha)).count SACOpt.qf1 = 1
        ∧ (SAC.updateSteps t update_period (SAC.loss nets cfg batch log_alpha)).count SACOpt.qf2 = 1
        ∧ (SAC.updateSteps t update_period (SAC.loss nets cfg batch log_alpha)).count SACOpt.vf = 1)
    ∧ (t % update_period ≠ 0 →
        SAC.updateSteps t update_period (SAC.loss nets cfg batch log_alpha) = [])
    ∧ (∀ p1 p2 : ℕ,
        (SAC.loss nets { cfg with policy_update_period := p1 } batch log_alpha).log_alpha
          = (SAC.loss nets { cfg with policy_update_period := p2 } batch log_alpha).log_alpha) := by
  refine ⟨?_, ?_, ?_, ?_, fun p1 p2 => rfl⟩
  · simp only [SAC.loss]
    split
    · next h => simp [h]
    · next h => simp [h]
  · unfold SAC.updateSteps
    split
    · next h =>
      cases hp : (SAC.loss nets cfg batch log_alpha).pi_loss with
      | none => simp [h, truthyOptLoss, hp]
      | some l =>
        by_cases hl : l = 0
        · simp [h, truthyOptLoss, hp, hl]
        · simp [h, truthyOptLoss, hp, hl]
    · next h => simp [h]
  · intro h
    unfold SAC.updateSteps
    rw [if_pos h]
    cases htr : truthyOptLoss (SAC.loss nets cfg batch log_alpha).pi_loss <;>
      simp [htr]
  · intro h
    unfold SAC.updateSteps
    rw [if_neg h]

/-- Witness for `sac_update_gating`: with the gate open and a nonzero
policy loss, the update block contains exactly one step for each critic and
the value net, and contains the policy step. -/
theorem sac_update_gating_witness :
    ((SAC.updateSteps 0 1
        (SAC.loss
          ⟨fun _ _ => 0, fun _ _ => 0, fun _ => 0, fun _ => 0, fun _ => 0, fun _ => 1,
            fun _ => 0, fun _ => 0⟩
          ⟨0, 0, 0, 0, fun x => x, false, true, true, 0, 0, 1, 0⟩
          [⟨0, 0, 0, 0, 0⟩] 0)).count SACOpt.qf1 = 1)
    ∧ SACOpt.pi ∈ SAC.updateSteps 0 1
        (SAC.loss
          ⟨fun _ _ => 0, fun _ _ => 0, fun _ => 0, fun _ => 0, fun _ => 0, fun _ => 1,
            fun _ => 0, fun _ => 0⟩
          ⟨0, 0, 0, 0, fun x => x, false, true, true, 0, 0, 1, 0⟩
          [⟨0, 0, 0, 0, 0⟩] 0) := by
  have h := sac_update_gating
    ⟨fun _ _ => 0, fun _ _ => 0, fun _ => 0, fun _ => 0, fun _ => 0, fun _ => 1,
      fun _ => 0, fun _ => 0⟩
    ⟨0, 0, 0, 0, fun x => x, false, true, true, 0, 0, 1, 0⟩
    [⟨0, 0, 0, 0, 0⟩] 0 0 1
  have hp : (SAC.loss
      ⟨fun _ _ => 0, fun _ _ => 0, fun _ => 0, fun _ => 0, fun _ => 0, fun _ => 1,
        fun _ => 0, fun _ => 0⟩
      ⟨0, 0, 0, 0, fun x => x, false, true, true, 0, 0, 1, 0⟩
      [⟨0, 0, 0, 0, 0⟩] 0).pi_loss = some 1 := by
    norm_num [SAC.loss, SAC.qminL, SAC.alphaVal, meanQ]
  refine ⟨(h.2.2.1 (by decide)).1, h.2.1.mpr ⟨by decide, 1, hp, by norm_num⟩⟩

/-- C9 counterexample: with `target_entropy = −2` and a batch whose `logp`
values (all `3`) are each *above* the target entropy, one temperature step
moves `log α` from `0` *up* to a positive value — refuting "logp above
target_entropy drives log α downward". The actual direction is governed by
the sign of `mean(logp + target_entropy)` (here `3 + (−2) = 1 > 0`). -/
theorem sac_temperature_direction_counterexample :
    ((-2 : ℚ) < 3)
    ∧ 0 < SAC.newLogAlpha ⟨0, 0, -2, 1, fun x => x, true, true, true, 0, 0, 1, 0⟩ 0 [3, 3] := by
  constructor
  · norm_num
  · norm_num [SAC.newLogAlpha, SAC.alphaGrad, meanQ]

/-- C9 amended: for a positive temperature learning rate, one temperature
gradient step moves `log α` downward exactly when
`mean(logp + target_entropy) < 0` (realized entropy `−logp` above target)
and upward when that mean is positive; and the temperature loss is linear
in `log α` with slope `SAC.alphaGrad` — so the modelled gradient step uses
the exact derivative, and repeated steps move monotonically while the sign
of the mean gap persists. -/
theorem sac_temperature_direction (cfg : SACLossCfg) (log_alpha : ℚ) (logp : List ℚ)
    (hlr : 0 < cfg.alpha_lr) :
    (meanQ (logp.map (fun l => l + cfg.target_entropy)) < 0 →
      SAC.newLogAlpha cfg log_alpha logp < log_alpha)
    ∧ (0 < meanQ (logp.map (fun l => l + cfg.target_entropy)) →
      log_alpha < SAC.newLogAlpha cfg log_alpha logp)
    ∧ (∀ h : ℚ,
        SAC.alpha_loss cfg (log_alpha + h) logp
          = SAC.alpha_loss cfg log_alpha logp + h * SAC.alphaGrad cfg logp) := by
  refine ⟨?_, ?_, ?_⟩
  · intro hm
    have hpos : 0 < cfg.alpha_lr * -meanQ (logp.map (fun l => l + cfg.target_entropy)) :=
      mul_pos hlr (by linarith)
    unfold SAC.newLogAlpha SAC.alphaGrad
    linarith
  · intro hm
    have hneg : cfg.alpha_lr * -meanQ (logp.map (fun l => l + cfg.target_entropy)) < 0 :=
      mul_neg_of_pos_of_neg hlr (by linarith)
    unfold SAC.newLogAlpha SAC.alphaGrad
    linarith
  · intro h
    unfold SAC.alpha_loss SAC.alphaGrad
    have h1 : logp.map (fun l => (log_alpha + h) * (l + cfg.target_entropy))
        = logp.map (fun l =>
            log_alpha * (l + cfg.target_entropy) + h * (l + cfg.target_entropy)) := by
      congr 1
      funext l
      ring
    rw [h1,
      meanQ_map_add (fun l => log_alpha * (l + cfg.target_entropy))
        (fun l => h * (l + cfg.target_entropy)) logp,
      meanQ_map_mul h (fun l => l + cfg.target_entropy) logp]
    ring

/-- Witness for `sac_temperature_direction`: with `target_entropy = −2`,
`lr = 1`, and `logp = [1, 1]` (mean gap `1 − 2 = −1 < 0`), the temperature
step moves `log α` from `0` down. -/
theorem sac_temperature_direction_witness :
    SAC.newLogAlpha ⟨0, 0, -2, 1, fun x => x, true, true, true, 0, 0, 1, 0⟩ 0 [1, 1] < 0 := by
  have h := (sac_temperature_direction ⟨0, 0, -2, 1, fun x => x, true, true, true, 0, 0, 1, 0⟩
    0 [1, 1] (by norm_num)).1
  apply h
  norm_num [meanQ]

/-- C7 counterexample: with entropy tuning enabled, a batch with
`reward.shape = (4, 1)` against critic outputs of shape `(4,)` broadcasts
`qtarg` to `(4, 4)` and hits the fatal `assert qtarg.shape == q1.shape` —
but the temperature optimizer step (sac.py:236) has *already* been applied
when the assertion fires, refuting "before any optimizer step is taken". -/
theorem sac_shape_contract_counterexample :
    SAC.stepShape true false true true true [4, 1] [4] [4] [4] [4] [4]
      = ([SACOptEv.alpha], some SACLossErr.qtargShape)
    ∧ SACOptEv.alpha ∈ (SAC.stepShape true false true true true [4, 1] [4] [4] [4] [4] [4]).1 := by
  decide

/-- C7 amended: whenever the broadcast critic target's shape differs from
the critic output shape, the loss raises the fatal shape assertion, the
error propagates out of `step` uncaught, and no critic, value, or policy
optimizer step is taken — though when entropy tuning is enabled the
temperature optimizer step has already been applied. -/
theorem sac_shape_contract (autoEnt rsample piGate piTruthy : Bool)
    (rewS doneS vtargS qS vS logpS dv qtargS : List ℕ)
    (h1 : broadcastShapes doneS vtargS = some dv)
    (h2 : broadcastShapes rewS dv = some qtargS)
    (h3 : qtargS ≠ qS) :
    (SAC.stepShape true piTruthy autoEnt rsample piGate rewS doneS vtargS qS vS logpS).2
      = some SACLossErr.qtargShape
    ∧ ∀ e ∈ (SAC.stepShape true piTruthy autoEnt rsample piGate rewS doneS vtargS qS vS logpS).1,
        e = SACOptEv.alpha := by
  have hloss : SAC.lossShape autoEnt rsample piGate rewS doneS vtargS qS vS logpS
      = (if autoEnt then [SACOptEv.alpha] else [], some SACLossErr.qtargShape) := by
    simp only [SAC.lossShape, h1, h2]
    rw [if_pos h3]
  constructor
  · simp [SAC.stepShape, hloss]
  · intro e he
    simp only [SAC.stepShape, hloss, if_true] at he
    cases autoEnt <;> simp_all

/-- Witness for `sac_shape_contract` at concrete shapes
(`reward (2,1)` against critic outputs `(2,)`, tuning disabled): the
assertion fires with no optimizer step taken at all. -/
theorem sac_shape_contract_witness :
    (SAC.stepShape true true false false false [2, 1] [2] [2] [2] [2] [2]).2
      = some SACLossErr.qtargShape
    ∧ ∀ e ∈ (SAC.stepShape true true false false false [2, 1] [2] [2] [2] [2] [2]).1,
        e = SACOptEv.alpha := by
  exact sac_shape_contract false false false true [2, 1] [2] [2] [2] [2] [2] [2] [2, 2]
    (by decide) (by decide) (by decide)

/-- C10: Target-entropy resolution in the constructor: with tuning enabled,
a user-supplied `target_entropy` of `0` (or `None`) is silently replaced by
the heuristic `−prod(action_space.shape)`; a user value takes effect iff it
is nonzero; with tuning disabled the field is `None`. -/
theorem sac_target_entropy_init (user : Option ℚ) (dimprod : ℚ) :
    SAC.targetEntropyInit true (some 0) dimprod = some (-dimprod)
    ∧ SAC.targetEntropyInit true none dimprod = some (-dimprod)
    ∧ (∀ x : ℚ, x ≠ 0 → SAC.targetEntropyInit true (some x) dimprod = some x)
    ∧ SAC.targetEntropyInit false user dimprod = none := by
  refine ⟨?_, ?_, ?_, ?_⟩
  · simp [SAC.targetEntropyInit, truthyOptQ]
  · simp [SAC.targetEntropyInit, truthyOptQ]
  · intro x hx
    simp [SAC.targetEntropyInit, truthyOptQ, hx]
  · simp [SAC.targetEntropyInit]

/-- Witness for `sac_target_entropy_init`: a supplied `0` falls back to the
heuristic `−2`, while a supplied `5` is kept. -/
theorem sac_target_entropy_init_witness :
    SAC.targetEntropyInit true (some 0) 2 = some (-2)
    ∧ SAC.targetEntropyInit true (some 5) 2 = some 5 := by
  have h := sac_target_entropy_init (some 0) 2
  exact ⟨h.1, h.2.2.1 5 (by norm_num)⟩
